import Mathlib

/-!
Shallow embedding of the HR analytics dashboard repository
(`setup_database.py`, the one-shot ingestion script, and `app.py`, the
dashboard).  Tabular data is modelled as Lean lists: a pandas DataFrame
column is a `List` of cell values (`Option` for nullable cells) and the
persisted `employees` table is a `List Row`.  Each definition embeds one
concrete piece of the Python source, cited in its doc comment.
-/

namespace HRApp

/-! ## Column Normalizer (`setup_database.py`, `clean_col_names`, lines 47-68) -/

/-- Character class of the regular expression `[^0-9a-zA-Z_]` used in
`re.sub(r'[^0-9a-zA-Z_]', '', col)`: a character survives the substitution
exactly when it is an ASCII digit, an ASCII letter, or an underscore
(`Char.isAlphanum` is exactly the ASCII ranges `0-9a-zA-Z`). -/
def isDbSafeChar (c : Char) : Bool :=
  c.isAlphanum || c == '_'

/-- Embeds `re.sub(r'[^0-9a-zA-Z_]', '', col)` (setup_database.py line 60):
every character outside `[0-9a-zA-Z_]` is removed from the label. -/
def cleanLabel (s : String) : String :=
  String.mk (s.data.filter isDbSafeChar)

/-- Embeds `clean_col_names` (setup_database.py lines 47-68).  The loop maps
`cleanLabel` over the labels and keeps only the non-empty results
(`if new_col: new_cols.append(new_col)`).  The final assignment
`df.columns = new_cols` requires the new label list to have the same length
as the existing column axis; pandas raises `ValueError: Length mismatch`
otherwise, which is modelled by returning `none`. -/
def clean_col_names (cols : List String) : Option (List String) :=
  if ((cols.map cleanLabel).filter (fun s => !s.isEmpty)).length = cols.length
  then some ((cols.map cleanLabel).filter (fun s => !s.isEmpty)) else none

/-! ## Ingestion: EmployeeID synthesis (`setup_database.py`, lines 94-97) -/

/-- Embeds the identifier step of `setup_database`: when the source has no
`EmployeeID` column (`ids = none`), `df.insert(0, 'EmployeeID',
range(1, 1 + len(df)))` creates the column holding `1, 2, ..., n` in source
row order; when the column exists it is left untouched. -/
def synthesizeIds (ids : Option (List Int)) (n : Nat) : List Int :=
  match ids with
  | some l => l
  | none => (List.range n).map (fun (i : Nat) => (i : Int) + 1)

/-! ## Ingestion: YearsAtCompany median fill (`setup_database.py`, lines 102-105) -/

/-- Insertion of an element into a list sorted by the boolean comparison
`le`; used to model the sorting performed inside `Series.median` and the
sorted group keys of `DataFrame.groupby`. -/
def insertSorted (le : α → α → Bool) (a : α) : List α → List α
  | [] => [a]
  | b :: bs => if le a b then a :: b :: bs else b :: insertSorted le a bs

/-- Stable insertion sort by the boolean comparison `le`. -/
def sortBy (le : α → α → Bool) : List α → List α
  | [] => []
  | a :: as => insertSorted le a (sortBy le as)

/-- Embeds `pandas.Series.median` with default `skipna` semantics applied to
the list of non-missing values: the median of an empty list is `NaN`
(modelled as `none`); otherwise the values are sorted and the middle value
(odd count) or the mean of the two middle values (even count) is returned. -/
def pandasMedian (xs : List ℚ) : Option ℚ :=
  if xs.isEmpty then none
  else
    let s := sortBy (fun a b => decide (a ≤ b)) xs
    let k := xs.length
    some (if k % 2 = 1 then s.getD (k / 2) 0
          else (s.getD (k / 2 - 1) 0 + s.getD (k / 2) 0) / 2)

/-- Embeds the `YearsAtCompany` cleaning step (setup_database.py lines
102-105): when the column contains a missing value, `median_years =
df['YearsAtCompany'].median()` is computed once over the non-missing values,
then `fillna(median_years)` replaces every missing cell with that single
scalar.  When every value is missing the median itself is `NaN` and the fill
leaves the cells missing, which the `none`-fill branch models. -/
def fillYearsAtCompany (col : List (Option ℚ)) : List (Option ℚ) :=
  if col.any (fun x => x.isNone) then
    let m := pandasMedian (col.filterMap id)
    col.map (fun x => match x with | some v => some v | none => m)
  else col

/-! ## The persisted `employees` table and the dashboard frame (`app.py`) -/

/-- One row of the `employees` table as the dashboard reads it
(`SELECT * FROM employees`, app.py line 44), restricted to the columns the
dashboard uses (`display_columns`, app.py lines 235-238).
`YearsAtCompany` and `JobSatisfaction` are nullable: the `INSERT` of the
add-employee form (app.py lines 80-84) names neither column and the table
created by `df.to_sql` has no `DEFAULT` clauses, so SQLite stores `NULL`
there for appended rows. -/
structure Row where
  employeeID : Int
  age : Int
  department : String
  jobRole : String
  monthlyIncome : Int
  attrition : String
  gender : String
  overTime : String
  performanceRating : Int
  jobSatisfaction : Option Int
  yearsAtCompany : Option ℚ
deriving DecidableEq, Repr

/-- Embeds the department filter (app.py lines 61-64):
`df[df['Department'] == department]` when a department is selected,
`df.copy()` for the sentinel `'All'` (a fresh copy with identical contents,
which in a pure model is the table itself). -/
def filterByDepartment (rows : List Row) (department : String) : List Row :=
  if department ≠ "All" then rows.filter (fun r => r.department == department)
  else rows

/-- Embeds `total_employees = df_filtered.shape[0]` (app.py line 120). -/
def total_employees (rows : List Row) : Nat := rows.length

/-- Embeds `avg_income = int(df_filtered['MonthlyIncome'].mean())` (app.py
line 121).  On an empty frame `Series.mean()` is `NaN` and `int(NaN)` raises
`ValueError`, modelled as `none`; otherwise the mean is the rational sum
divided by the count and `int` truncates toward zero (`Int.tdiv`). -/
def avg_income (rows : List Row) : Option Int :=
  if rows.isEmpty then none
  else
    let m : ℚ := ((rows.map (fun r => (r.monthlyIncome : ℚ))).sum) / (rows.length : ℚ)
    some (m.num.tdiv (m.den : Int))

/-- Embeds `attrition_rate` (app.py line 122):
`(df_filtered[df_filtered['Attrition'] == 'Yes'].shape[0] / total_employees
* 100) if total_employees > 0 else 0`. -/
def attrition_rate (rows : List Row) : ℚ :=
  if 0 < total_employees rows then
    (((rows.filter (fun r => r.attrition == "Yes")).length : ℚ)
      / (total_employees rows : ℚ)) * 100
  else 0

/-- Embeds `Series.value_counts()` (app.py lines 141, 155, 189): one entry
per distinct value with its occurrence count, sorted by count in descending
order. -/
def value_counts [DecidableEq α] (xs : List α) : List (α × Nat) :=
  sortBy (fun a b => decide (b.2 ≤ a.2)) (xs.dedup.map (fun v => (v, xs.count v)))

/-- Embeds `role_counts = df_filtered['JobRole'].value_counts()` (app.py
line 141). -/
def role_counts (rows : List Row) : List (String × Nat) :=
  value_counts (rows.map (fun r => r.jobRole))

/-- Embeds `perf_counts = df_filtered['PerformanceRating'].value_counts()`
(app.py line 155). -/
def perf_counts (rows : List Row) : List (Int × Nat) :=
  value_counts (rows.map (fun r => r.performanceRating))

/-- Embeds `attrition_counts = df_filtered['Attrition'].value_counts()`
(app.py line 189). -/
def attrition_counts (rows : List Row) : List (String × Nat) :=
  value_counts (rows.map (fun r => r.attrition))

/-- Lexicographic code-point comparison of character lists, the order Python
uses on strings. -/
def charListLt : List Char → List Char → Bool
  | _, [] => false
  | [], _ :: _ => true
  | a :: as, b :: bs =>
    decide (a.toNat < b.toNat) || (decide (a.toNat = b.toNat) && charListLt as bs)

/-- Boolean total order on strings used for sorted `groupby` keys. -/
def strLe (a b : String) : Bool := !(charListLt b.data a.data)

/-- Embeds `perf_attrition = df_filtered.groupby(['PerformanceRating',
'Attrition']).size()` (app.py line 220): one entry per key pair present in
the frame, keys sorted, each with the number of matching rows. -/
def perf_attrition (rows : List Row) : List ((Int × String) × Nat) :=
  let keys := sortBy
    (fun a b => decide (a.1 < b.1) || (decide (a.1 = b.1) && strLe a.2 b.2))
    ((rows.map (fun r => (r.performanceRating, r.attrition))).dedup)
  keys.map (fun k =>
    (k, (rows.filter (fun r => (r.performanceRating, r.attrition) == k)).length))

/-- Rows of the filtered frame whose `OverTime` value is `v`: one group of
`df_filtered.groupby('OverTime')` (app.py line 204). -/
def overtimeGroup (rows : List Row) (v : String) : List Row :=
  rows.filter (fun r => r.overTime == v)

/-- Embeds the overtime breakdown (app.py lines 204-215):
`df_filtered.groupby('OverTime')['Attrition'].value_counts(normalize=True)
.unstack().fillna(0)` followed by `if 'Yes' in overtime_attrition.columns:
overtime_attrition = (overtime_attrition['Yes'] * 100)`.  The `'Yes'` column
of the unstacked frame exists exactly when some row of the filtered frame
has attrition `'Yes'`; when it does not, the chart is skipped entirely
(`none`).  Otherwise each `OverTime` value present in the frame (groupby
keys, sorted) is paired with the proportion of `'Yes'` attrition inside its
group, times 100. -/
def overtime_attrition (rows : List Row) : Option (List (String × ℚ)) :=
  if rows.any (fun r => r.attrition == "Yes") then
    some ((sortBy strLe ((rows.map (fun r => r.overTime)).dedup)).map
      (fun v =>
        (v, (((overtimeGroup rows v).filter (fun r => r.attrition == "Yes")).length : ℚ)
              / ((overtimeGroup rows v).length : ℚ) * 100)))
  else none

/-- Embeds `UPDATE employees SET MonthlyIncome = ? WHERE EmployeeID = ?`
(app.py lines 107-108): every row whose `EmployeeID` matches gets its
`MonthlyIncome` replaced; every other row is untouched. -/
def updateIncome (rows : List Row) (empId newIncome : Int) : List Row :=
  rows.map (fun r =>
    if r.employeeID = empId then { r with monthlyIncome := newIncome } else r)

/-- Embeds the row built by the add-employee `INSERT` (app.py lines 80-84):
the statement names exactly nine columns, with `Attrition`, `Gender`,
`Overtime` and `PerformanceRating` given the literals `'No'`, `'N/A'`,
`'No'`, `3`; every column of the persisted schema not named in the `INSERT`
(in this model `YearsAtCompany` and `JobSatisfaction`) is stored as `NULL`
because the `df.to_sql`-created table has no `DEFAULT` clauses. -/
def newEmployeeRow (empId age : Int) (dept role : String) (income : Int) : Row :=
  { employeeID := empId, age := age, department := dept, jobRole := role,
    monthlyIncome := income, attrition := "No", gender := "N/A",
    overTime := "No", performanceRating := 3,
    jobSatisfaction := none, yearsAtCompany := none }

/-- Embeds the add-employee `INSERT` against the `employees` table created
by `df.to_sql(TABLE_NAME, engine, if_exists='replace', index=False)`
(setup_database.py line 120).  `to_sql` creates a plain table with no
`PRIMARY KEY` and no `UNIQUE` constraint, so an `INSERT` into it never
raises `sqlite3.IntegrityError`: it unconditionally appends the new row. -/
def insertEmployee (rows : List Row) (empId age : Int) (dept role : String)
    (income : Int) : List Row :=
  rows ++ [newEmployeeRow empId age dept role income]

/-- Embeds `scatter_df = df_filtered.dropna(subset=['YearsAtCompany'])`
(app.py line 170): only rows with a non-missing `YearsAtCompany` survive. -/
def scatter_df (rows : List Row) : List Row :=
  rows.filter (fun r => r.yearsAtCompany.isSome)

/-! ## Sample rows used by concrete witnesses -/

/-- Sample ingested row with department `Sales` and no attrition. -/
def rowA : Row :=
  { employeeID := 1, age := 30, department := "Sales", jobRole := "Manager",
    monthlyIncome := 5000, attrition := "No", gender := "Male",
    overTime := "No", performanceRating := 3,
    jobSatisfaction := some 4, yearsAtCompany := some 5 }

/-- Sample ingested row with department `HR` and attrition `Yes`. -/
def rowB : Row :=
  { employeeID := 2, age := 35, department := "HR", jobRole := "Recruiter",
    monthlyIncome := 4000, attrition := "Yes", gender := "Female",
    overTime := "Yes", performanceRating := 4,
    jobSatisfaction := some 3, yearsAtCompany := some 6 }

/-! ## Helper lemmas about the sorting used in the embedding -/

theorem mem_insertSorted {le : α → α → Bool} {x a : α} {l : List α} :
    a ∈ insertSorted le x l ↔ a = x ∨ a ∈ l := by
  induction l with
  | nil => simp [insertSorted]
  | cons b bs ih =>
    by_cases h : le x b
    · simp only [insertSorted, if_pos h, List.mem_cons]
    · simp only [insertSorted, if_neg h, List.mem_cons, ih]
      tauto

theorem mem_sortBy {le : α → α → Bool} {a : α} {l : List α} :
    a ∈ sortBy le l ↔ a ∈ l := by
  induction l with
  | nil => simp [sortBy]
  | cons b bs ih => simp [sortBy, mem_insertSorted, ih]

/-! ## Claim theorems -/

/-- C1 (code bug): the spec claims an insert with an `EmployeeID` already
present fails with `ConstraintViolation`, leaving the row count unchanged,
and app.py's own `except sqlite3.IntegrityError` handler expects the same;
but the `employees` table created by `df.to_sql` carries no uniqueness
constraint, so the duplicate insert succeeds.  Evaluated on a one-row table
whose row has `EmployeeID` 1, inserting a second employee with `EmployeeID`
1 grows the table to two rows, both with `EmployeeID` 1. -/
theorem C1_insert_duplicate_id_appends :
    (insertEmployee [rowA] 1 40 "HR" "Recruiter" 4000).length =
      [rowA].length + 1 ∧
    ((insertEmployee [rowA] 1 40 "HR" "Recruiter" 4000).filter
        (fun r => r.employeeID == 1)).length = 2 := by
  decide

/-- C3 counterexample: on the raw labels `["Monthly Income", "$"]` the claim
predicts output `["MonthlyIncome"]` with the emptied label `"$"` silently
dropped, but `clean_col_names` fails (the `df.columns` assignment raises a
length-mismatch `ValueError`, modelled as `none`). -/
theorem C3_counterexample :
    clean_col_names ["Monthly Income", "$"] = none ∧
    (["Monthly Income", "$"].map cleanLabel).filter (fun s => !s.isEmpty) =
      ["MonthlyIncome"] := by
  decide

/-- C3 (amended): when `clean_col_names` succeeds, the output lists, in the
same relative order, each input label with every character outside
`[0-9a-zA-Z_]` removed, and no output label is empty or contains a
disallowed character; the operation fails (length-mismatch error) exactly
when some label becomes empty after removal, rather than dropping that
label. -/
theorem C3_clean_col_names (cols : List String) :
    (∀ out, clean_col_names cols = some out →
      out = cols.map cleanLabel ∧
      ∀ l ∈ out, l ≠ "" ∧ ∀ c ∈ l.data, isDbSafeChar c = true) ∧
    (clean_col_names cols = none ↔ ∃ s ∈ cols, cleanLabel s = "") := by
  have hlen :
      ((cols.map cleanLabel).filter (fun s => !s.isEmpty)).length =
          cols.length ↔
        ∀ l ∈ cols.map cleanLabel, (!l.isEmpty) = true := by
    constructor
    · intro h
      refine List.filter_eq_self.mp ?_
      exact (List.filter_sublist _).eq_of_length
        (h.trans (cols.length_map cleanLabel).symm)
    · intro h
      rw [List.filter_eq_self.mpr h, List.length_map]
  constructor
  · intro out hout
    simp only [clean_col_names] at hout
    by_cases h : ((cols.map cleanLabel).filter (fun s => !s.isEmpty)).length =
        cols.length
    · rw [if_pos h] at hout
      have hall := hlen.mp h
      have hfe : (cols.map cleanLabel).filter (fun s => !s.isEmpty) =
          cols.map cleanLabel := List.filter_eq_self.mpr hall
      have hxo : (cols.map cleanLabel).filter (fun s => !s.isEmpty) = out :=
        Option.some.inj hout
      have hout' : out = cols.map cleanLabel := by rw [← hxo, hfe]
      refine ⟨hout', ?_⟩
      intro l hl
      rw [hout'] at hl
      constructor
      · have h2 := hall l hl
        intro hcon
        rw [hcon] at h2
        exact absurd h2 (by decide)
      · obtain ⟨s, _, hs⟩ := List.mem_map.mp hl
        intro c hc
        rw [← hs] at hc
        exact List.of_mem_filter hc
    · rw [if_neg h] at hout
      cases hout
  · simp only [clean_col_names]
    by_cases h : ((cols.map cleanLabel).filter (fun s => !s.isEmpty)).length =
        cols.length
    · rw [if_pos h]
      constructor
      · intro hcon
        cases hcon
      · rintro ⟨s, hs, hempty⟩
        have h2 := hlen.mp h (cleanLabel s) (List.mem_map_of_mem cleanLabel hs)
        rw [hempty] at h2
        exact absurd h2 (by decide)
    · rw [if_neg h]
      constructor
      · intro _
        by_contra hne
        push_neg at hne
        refine h (hlen.mpr ?_)
        intro l hl
        obtain ⟨s, hs, rfl⟩ := List.mem_map.mp hl
        have h3 := hne s hs
        cases hie : (cleanLabel s).isEmpty
        · simp
        · exact absurd ((String.isEmpty_iff (cleanLabel s)).mp hie) h3
      · intro _
        rfl

/-- C3 witness: concrete evaluation of the amended theorem on the labels
`["Age", "Job Role"]`, whose cleaned forms are `["Age", "JobRole"]`. -/
theorem C3_witness :
    (["Age", "JobRole"] : List String) = ["Age", "Job Role"].map cleanLabel ∧
    ("JobRole" : String) ≠ "" := by
  have h := (C3_clean_col_names ["Age", "Job Role"]).1 ["Age", "JobRole"]
    (by decide)
  exact ⟨h.1, (h.2 "JobRole" (by decide)).1⟩

/-- C9: when the source has no identifier column, ingestion synthesizes
`EmployeeID` as the integers `1..N` in source row order, which are pairwise
distinct; an existing identifier column is left as-is. -/
theorem C9_synthesize_ids (n : Nat) (l : List Int) :
    synthesizeIds (some l) n = l ∧
    (synthesizeIds none n).length = n ∧
    (∀ i, i < n → (synthesizeIds none n).getD i 0 = (i : Int) + 1) ∧
    (synthesizeIds none n).Nodup := by
  refine ⟨rfl, ?_, ?_, ?_⟩
  · show ((List.range n).map (fun (i : Nat) => (i : Int) + 1)).length = n
    rw [List.length_map, List.length_range]
  · intro i hi
    show ((List.range n).map (fun (i : Nat) => (i : Int) + 1)).getD i 0 = _
    rw [List.getD_eq_getElem?_getD, List.getElem?_map, List.getElem?_range hi]
    rfl
  · show ((List.range n).map (fun (i : Nat) => (i : Int) + 1)).Nodup
    exact List.Nodup.map (fun a b h => by omega) (List.nodup_range n)

/-- C9 witness: concrete evaluation at `n = 3` with no identifier column and
at an existing column `[7]`. -/
theorem C9_witness :
    synthesizeIds none 3 = [1, 2, 3] ∧
    synthesizeIds (some [7]) 3 = [7] ∧
    (synthesizeIds none 3).getD 1 0 = 2 ∧
    (synthesizeIds none 3).Nodup := by
  have h := C9_synthesize_ids 3 [7]
  refine ⟨by decide, h.1, ?_, h.2.2.2⟩
  have := h.2.2.1 1 (by decide)
  simpa using this

/-- C6: filtering with the sentinel `"All"` returns the full table
unchanged, and filtering with any other value returns exactly the rows whose
department equals it (sound and complete), in the original row order (the
result is a sublist of the table). -/
theorem C6_filter_by_department (rows : List Row) (d : String) :
    filterByDepartment rows "All" = rows ∧
    (d ≠ "All" →
      (∀ r ∈ filterByDepartment rows d, r.department = d ∧ r ∈ rows) ∧
      (∀ r ∈ rows, r.department = d → r ∈ filterByDepartment rows d) ∧
      (filterByDepartment rows d).Sublist rows) := by
  constructor
  · simp [filterByDepartment]
  · intro hd
    have he : filterByDepartment rows d =
        rows.filter (fun r => r.department == d) := by
      simp [filterByDepartment, hd]
    refine ⟨?_, ?_, ?_⟩
    · intro r hr
      rw [he] at hr
      have h := List.mem_filter.mp hr
      exact ⟨by simpa using h.2, h.1⟩
    · intro r hr hdep
      rw [he]
      exact List.mem_filter.mpr ⟨hr, by simpa using hdep⟩
    · rw [he]
      exact List.filter_sublist rows

/-- C6 witness: concrete evaluation on a two-row table with the sentinel and
with department `"HR"`. -/
theorem C6_witness :
    filterByDepartment [rowA, rowB] "All" = [rowA, rowB] ∧
    rowB ∈ filterByDepartment [rowA, rowB] "HR" ∧
    (filterByDepartment [rowA, rowB] "HR").Sublist [rowA, rowB] := by
  have h := C6_filter_by_department [rowA, rowB] "HR"
  have h2 := h.2 (by decide)
  exact ⟨h.1, h2.2.1 rowB (by decide) (by decide), h2.2.2⟩

/-- C7: the attrition rate is 0 for an empty filtered set, equals
`100 * yes_count / total` when the total is positive (the guard keeps the
division away from a zero denominator), and always lies between 0 and
100. -/
theorem C7_attrition_rate (rows : List Row) :
    (rows.length = 0 → attrition_rate rows = 0) ∧
    (0 < rows.length →
      attrition_rate rows =
        ((rows.filter (fun r => r.attrition == "Yes")).length : ℚ)
          / (rows.length : ℚ) * 100) ∧
    0 ≤ attrition_rate rows ∧ attrition_rate rows ≤ 100 := by
  have hy : (rows.filter (fun r => r.attrition == "Yes")).length ≤
      rows.length := List.length_filter_le _ _
  by_cases h : 0 < rows.length
  · have he : attrition_rate rows =
        ((rows.filter (fun r => r.attrition == "Yes")).length : ℚ)
          / (rows.length : ℚ) * 100 := by
      simp [attrition_rate, total_employees, h]
    refine ⟨fun h0 => absurd h0 (by omega), fun _ => he, ?_, ?_⟩
    · rw [he]
      positivity
    · rw [he]
      have hn : (0 : ℚ) < rows.length := by exact_mod_cast h
      have hq : ((rows.filter (fun r => r.attrition == "Yes")).length : ℚ)
          / (rows.length : ℚ) ≤ 1 := by
        rw [div_le_one hn]
        exact_mod_cast hy
      have := mul_le_mul_of_nonneg_right hq (by norm_num : (0 : ℚ) ≤ 100)
      simpa using this
  · have h0 : rows.length = 0 := by omega
    have he : attrition_rate rows = 0 := by
      simp [attrition_rate, total_employees, h0]
    exact ⟨fun _ => he, fun hc => absurd hc (by omega), by rw [he],
      by rw [he]; norm_num⟩

/-- C7 witness: concrete evaluation on a two-row table with one `"Yes"`
attrition row: the rate is `1/2 * 100 = 50` and lies within bounds. -/
theorem C7_witness :
    attrition_rate [rowA, rowB] = 50 ∧
    0 ≤ attrition_rate [rowA, rowB] ∧ attrition_rate [rowA, rowB] ≤ 100 := by
  have h := C7_attrition_rate [rowA, rowB]
  have he := h.2.1 (by decide)
  refine ⟨?_, h.2.2.1, h.2.2.2⟩
  rw [he, show ([rowA, rowB].filter (fun r => r.attrition == "Yes")).length = 1
    from by decide, show ([rowA, rowB] : List Row).length = 2 from by decide]
  norm_num

/-- C8: the SQL `UPDATE ... SET MonthlyIncome = ? WHERE EmployeeID = ?` on a
table containing the targeted `EmployeeID` preserves the row count, makes
the matching position hold the original record with only `MonthlyIncome`
replaced by the new value, and leaves every non-matching position exactly
unchanged. -/
theorem C8_update_income (rows : List Row) (e v : Int)
    (hpresent : ∃ r ∈ rows, r.employeeID = e) :
    (updateIncome rows e v).length = rows.length ∧
    (∃ r ∈ updateIncome rows e v, r.employeeID = e ∧ r.monthlyIncome = v) ∧
    (∀ (i : Nat) (r : Row), rows[i]? = some r →
      (r.employeeID = e →
        (updateIncome rows e v)[i]? = some { r with monthlyIncome := v }) ∧
      (r.employeeID ≠ e → (updateIncome rows e v)[i]? = some r)) := by
  refine ⟨by simp [updateIncome], ?_, ?_⟩
  · obtain ⟨r, hr, hid⟩ := hpresent
    have hfr : (fun r =>
        if r.employeeID = e then { r with monthlyIncome := v } else r) r =
        { r with monthlyIncome := v } := by
      simp [hid]
    have hmem := List.mem_map_of_mem
      (fun r => if r.employeeID = e then { r with monthlyIncome := v } else r)
      hr
    rw [hfr] at hmem
    exact ⟨{ r with monthlyIncome := v }, hmem, hid, rfl⟩
  · intro i r hir
    constructor
    · intro hid
      simp [updateIncome, List.getElem?_map, hir, hid]
    · intro hid
      simp [updateIncome, List.getElem?_map, hir, hid]

/-- C8 witness: concrete evaluation on a two-row table, updating the income
of `EmployeeID` 2: position 1 holds the updated record, position 0 is
untouched. -/
theorem C8_witness :
    (updateIncome [rowA, rowB] 2 9999).length = 2 ∧
    (updateIncome [rowA, rowB] 2 9999)[1]? =
      some { rowB with monthlyIncome := 9999 } ∧
    (updateIncome [rowA, rowB] 2 9999)[0]? = some rowA := by
  have h := C8_update_income [rowA, rowB] 2 9999 ⟨rowB, by decide, rfl⟩
  refine ⟨by rw [h.1]; rfl, ?_, ?_⟩
  · exact (h.2.2 1 rowB rfl).1 rfl
  · exact (h.2.2 0 rowA rfl).2 (by decide)

/-- C2 counterexample: on a one-row `Sales` table filtered by department
`"HR"` (zero matching rows), the average-income computation fails —
`Series.mean()` of the empty column is `NaN` and `int(NaN)` raises
`ValueError`, modelled by `avg_income` returning `none` — contradicting the
claim that the computation is zero-guarded and does not fail. -/
theorem C2_counterexample :
    avg_income (filterByDepartment [rowA] "HR") = none ∧
    rowA.department = "Sales" := by
  exact ⟨rfl, rfl⟩

/-- C2 (amended): on a department with zero matching rows, the total is 0,
the attrition rate is 0 and every breakdown is empty, but the
average-income computation fails (`none`, modelling the `int(NaN)`
`ValueError`) instead of being zero-guarded. -/
theorem C2_empty_department_metrics (rows : List Row) (d : String)
    (hd : d ≠ "All") (hnone : ∀ r ∈ rows, r.department ≠ d) :
    total_employees (filterByDepartment rows d) = 0 ∧
    avg_income (filterByDepartment rows d) = none ∧
    attrition_rate (filterByDepartment rows d) = 0 ∧
    role_counts (filterByDepartment rows d) = [] ∧
    perf_counts (filterByDepartment rows d) = [] ∧
    attrition_counts (filterByDepartment rows d) = [] ∧
    perf_attrition (filterByDepartment rows d) = [] ∧
    overtime_attrition (filterByDepartment rows d) = none := by
  have he : filterByDepartment rows d = [] := by
    rw [filterByDepartment, if_pos hd]
    refine List.filter_eq_nil_iff.mpr ?_
    intro r hr
    simpa using hnone r hr
  rw [he]
  exact ⟨rfl, rfl, rfl, rfl, rfl, rfl, rfl, rfl⟩

/-- C2 witness: concrete evaluation of the amended theorem on a one-row
`Sales` table filtered by `"HR"`. -/
theorem C2_witness :
    total_employees (filterByDepartment [rowA] "HR") = 0 ∧
    avg_income (filterByDepartment [rowA] "HR") = none ∧
    attrition_rate (filterByDepartment [rowA] "HR") = 0 ∧
    role_counts (filterByDepartment [rowA] "HR") = [] ∧
    perf_counts (filterByDepartment [rowA] "HR") = [] ∧
    attrition_counts (filterByDepartment [rowA] "HR") = [] ∧
    perf_attrition (filterByDepartment [rowA] "HR") = [] ∧
    overtime_attrition (filterByDepartment [rowA] "HR") = none :=
  C2_empty_department_metrics [rowA] "HR" (by decide) (by decide)

/-- C5 counterexample: on a years-at-company column whose every entry is
missing, the median of the non-missing values is `NaN` (`none`) and
`fillna(NaN)` leaves the column with missing values, contradicting the
claim that after ingestion the column has no missing values. -/
theorem C5_counterexample :
    fillYearsAtCompany [(none : Option ℚ)] = [none] ∧
    ([(none : Option ℚ)].any (fun x => x.isNone)) = true ∧
    ((fillYearsAtCompany [(none : Option ℚ)]).any (fun x => x.isNone)) =
      true := by
  exact ⟨rfl, rfl, rfl⟩

/-- C5 (amended): on a years-at-company column that has at least one missing
value and at least one non-missing value, the fill step computes the median
of the non-missing values once (it is defined, `isSome`), replaces every
missing entry with that single scalar, keeps every non-missing entry
unchanged, and afterwards the column has no missing values. -/
theorem C5_fill_years (col : List (Option ℚ))
    (hmiss : col.any (fun x => x.isNone) = true)
    (hnonmiss : col.filterMap id ≠ []) :
    (pandasMedian (col.filterMap id)).isSome = true ∧
    (fillYearsAtCompany col).length = col.length ∧
    (∀ x ∈ fillYearsAtCompany col, x.isSome = true) ∧
    (∀ (i : Nat) (x : Option ℚ), col[i]? = some x →
      (x = none →
        (fillYearsAtCompany col)[i]? =
          some (some ((pandasMedian (col.filterMap id)).getD 0))) ∧
      (∀ v, x = some v → (fillYearsAtCompany col)[i]? = some (some v))) := by
  have hm : (pandasMedian (col.filterMap id)).isSome = true := by
    rw [pandasMedian, if_neg (by simpa [List.isEmpty_iff] using hnonmiss)]
    rfl
  obtain ⟨m, hm'⟩ := Option.isSome_iff_exists.mp hm
  have hfill : fillYearsAtCompany col =
      col.map (fun x => match x with
        | some v => some v
        | none => pandasMedian (col.filterMap id)) := by
    simp [fillYearsAtCompany, hmiss]
  refine ⟨hm, ?_, ?_, ?_⟩
  · rw [hfill]
    exact List.length_map _ _
  · intro x hx
    rw [hfill] at hx
    obtain ⟨y, _, hxy⟩ := List.mem_map.mp hx
    cases y with
    | some v => simp [← hxy]
    | none =>
      rw [← hxy]
      simp [hm']
  · intro i x hix
    constructor
    · intro hxn
      rw [hfill, List.getElem?_map, hix, hxn]
      simp [hm']
    · intro v hxv
      rw [hfill, List.getElem?_map, hix, hxv]
      rfl

/-- C5 witness: concrete evaluation on the column `[some 5, none]`: the
median of the non-missing values is defined, the missing cell at index 1 is
filled with it, and the non-missing cell at index 0 is unchanged. -/
theorem C5_witness :
    (pandasMedian ([some (5 : ℚ), none].filterMap id)).isSome = true ∧
    (fillYearsAtCompany [some (5 : ℚ), none])[1]? =
      some (some ((pandasMedian ([some (5 : ℚ), none].filterMap id)).getD 0)) ∧
    (fillYearsAtCompany [some (5 : ℚ), none])[0]? = some (some 5) := by
  have h := C5_fill_years [some (5 : ℚ), none] rfl (by simp)
  exact ⟨h.1, (h.2.2.2 1 none rfl).1 rfl, (h.2.2.2 0 (some 5) rfl).2 5 rfl⟩

/-- C4 counterexample: on a one-row table whose row has overtime `"No"` and
attrition `"No"`, the overtime category `"No"` has a matching row yet no
breakdown is produced at all (the `'Yes'` column is absent from the
unstacked frame, so the chart branch is skipped), contradicting the claim
that each overtime category is reported with its `"Yes"` percentage. -/
theorem C4_counterexample :
    overtime_attrition [rowA] = none ∧
    0 < (overtimeGroup [rowA] "No").length := by
  exact ⟨rfl, by decide⟩

/-- C4 (amended): every entry of the overtime breakdown pairs an overtime
category having at least one matching row with
`100 * (yes count in the category) / (category row count)`; categories with
zero matching rows never appear; provided at least one filtered row has
attrition `"Yes"`, every category with a matching row does appear; and when
no filtered row has attrition `"Yes"`, no breakdown is produced at all. -/
theorem C4_overtime_attrition (rows : List Row) :
    (∀ v p, (v, p) ∈ (overtime_attrition rows).getD [] →
      0 < (overtimeGroup rows v).length ∧
      p = (((overtimeGroup rows v).filter
              (fun r => r.attrition == "Yes")).length : ℚ)
            / ((overtimeGroup rows v).length : ℚ) * 100) ∧
    (∀ v, (overtimeGroup rows v).length = 0 →
      ∀ p, (v, p) ∉ (overtime_attrition rows).getD []) ∧
    (rows.any (fun r => r.attrition == "Yes") = true →
      ∀ v, 0 < (overtimeGroup rows v).length →
        ∃ p, (v, p) ∈ (overtime_attrition rows).getD []) ∧
    (rows.any (fun r => r.attrition == "Yes") = false →
      overtime_attrition rows = none) := by
  have hkey : ∀ v : String,
      v ∈ sortBy strLe ((rows.map (fun r => r.overTime)).dedup) ↔
        0 < (overtimeGroup rows v).length := by
    intro v
    rw [mem_sortBy, List.mem_dedup, List.mem_map]
    constructor
    · rintro ⟨r, hr, hrv⟩
      have hmem : r ∈ overtimeGroup rows v :=
        List.mem_filter.mpr ⟨hr, by simp [hrv]⟩
      exact List.length_pos.mpr (fun hnil => by rw [hnil] at hmem; cases hmem)
    · intro hpos
      obtain ⟨r, hr⟩ := List.exists_mem_of_length_pos hpos
      have h2 := List.mem_filter.mp hr
      exact ⟨r, h2.1, by simpa using h2.2⟩
  by_cases hyes : rows.any (fun r => r.attrition == "Yes") = true
  · have hout : (overtime_attrition rows).getD [] =
        (sortBy strLe ((rows.map (fun r => r.overTime)).dedup)).map
          (fun v =>
            (v, (((overtimeGroup rows v).filter
                    (fun r => r.attrition == "Yes")).length : ℚ)
                  / ((overtimeGroup rows v).length : ℚ) * 100)) := by
      rw [overtime_attrition, if_pos hyes]
      rfl
    refine ⟨?_, ?_, ?_, ?_⟩
    · intro v p hvp
      rw [hout] at hvp
      obtain ⟨v', hv', heq⟩ := List.mem_map.mp hvp
      have hv : v' = v := congrArg Prod.fst heq
      have hp := congrArg Prod.snd heq
      rw [hv] at hv' hp
      exact ⟨(hkey v).mp hv', hp.symm⟩
    · intro v hv0 p hvp
      rw [hout] at hvp
      obtain ⟨v', hv', heq⟩ := List.mem_map.mp hvp
      have hv : v' = v := congrArg Prod.fst heq
      rw [hv] at hv'
      have hpos := (hkey v).mp hv'
      omega
    · intro _ v hpos
      rw [hout]
      exact ⟨_, List.mem_map_of_mem _ ((hkey v).mpr hpos)⟩
    · intro hno
      rw [hyes] at hno
      cases hno
  · have hno : rows.any (fun r => r.attrition == "Yes") = false := by
      revert hyes
      cases rows.any (fun r => r.attrition == "Yes") <;> simp
    have hnone : overtime_attrition rows = none := by
      rw [overtime_attrition, if_neg (by rw [hno]; exact Bool.false_ne_true)]
    refine ⟨?_, ?_, ?_, fun _ => hnone⟩
    · intro v p hvp
      rw [hnone] at hvp
      cases hvp
    · intro v _ p hvp
      rw [hnone] at hvp
      cases hvp
    · intro hcon
      rw [hno] at hcon
      cases hcon

/-- C4 witness: concrete evaluation of the amended theorem on a one-row
table whose row has overtime `"Yes"` and attrition `"Yes"`: the category
`"Yes"` is reported with `1/1 * 100 = 100` percent. -/
theorem C4_witness :
    ("Yes", (100 : ℚ)) ∈ (overtime_attrition [rowB]).getD [] ∧
    (overtimeGroup [rowB] "Yes").length = 1 := by
  have h := C4_overtime_attrition [rowB]
  obtain ⟨p, hp⟩ := h.2.2.1 rfl "Yes" (by decide)
  have hv := (h.1 "Yes" p hp).2
  have hl1 : ((overtimeGroup [rowB] "Yes").filter
      (fun r => r.attrition == "Yes")).length = 1 := by decide
  have hl2 : (overtimeGroup [rowB] "Yes").length = 1 := by decide
  have hp100 : p = 100 := by
    rw [hv, hl1, hl2]
    norm_num
  rw [hp100] at hp
  exact ⟨hp, hl2⟩

/-- C10 (implicit): the add-employee insert writes exactly the nine listed
columns — the four trailing ones defaulted to `'No'`, `'N/A'`, `'No'`, `3` —
and every other column of the persisted schema (here `YearsAtCompany` and
`JobSatisfaction`) is `NULL` in the new row; consequently, on a table where
every row has a non-missing `YearsAtCompany` (the post-ingestion invariant),
appending a new employee breaks that invariant, and the dashboard's
`dropna`-based scatter frame silently drops exactly the appended row. -/
theorem C10_insert_new_employee (rows : List Row) (empId age : Int)
    (dept role : String) (income : Int)
    (hing : ∀ r ∈ rows, r.yearsAtCompany.isSome = true) :
    ((newEmployeeRow empId age dept role income).employeeID = empId ∧
      (newEmployeeRow empId age dept role income).age = age ∧
      (newEmployeeRow empId age dept role income).department = dept ∧
      (newEmployeeRow empId age dept role income).jobRole = role ∧
      (newEmployeeRow empId age dept role income).monthlyIncome = income) ∧
    ((newEmployeeRow empId age dept role income).attrition = "No" ∧
      (newEmployeeRow empId age dept role income).gender = "N/A" ∧
      (newEmployeeRow empId age dept role income).overTime = "No" ∧
      (newEmployeeRow empId age dept role income).performanceRating = 3) ∧
    ((newEmployeeRow empId age dept role income).yearsAtCompany = none ∧
      (newEmployeeRow empId age dept role income).jobSatisfaction = none) ∧
    newEmployeeRow empId age dept role income ∈
      insertEmployee rows empId age dept role income ∧
    (insertEmployee rows empId age dept role income).length =
      rows.length + 1 ∧
    scatter_df (insertEmployee rows empId age dept role income) = rows := by
  refine ⟨⟨rfl, rfl, rfl, rfl, rfl⟩, ⟨rfl, rfl, rfl, rfl⟩, ⟨rfl, rfl⟩,
    ?_, ?_, ?_⟩
  · simp [insertEmployee]
  · simp [insertEmployee]
  · have h1 : scatter_df rows = rows := by
      rw [scatter_df]
      exact List.filter_eq_self.mpr (fun r hr => by simpa using hing r hr)
    rw [scatter_df, insertEmployee, List.filter_append]
    rw [show List.filter (fun r => r.yearsAtCompany.isSome)
        [newEmployeeRow empId age dept role income] = [] from rfl]
    rw [List.append_nil]
    exact h1

/-- C10 witness: concrete evaluation on a one-row ingested table: the
appended row carries `NULL` in `YearsAtCompany`, and the scatter frame drops
exactly it. -/
theorem C10_witness :
    newEmployeeRow 101 28 "Sales" "Executive" 3000 ∈
      insertEmployee [rowA] 101 28 "Sales" "Executive" 3000 ∧
    (newEmployeeRow 101 28 "Sales" "Executive" 3000).yearsAtCompany = none ∧
    (newEmployeeRow 101 28 "Sales" "Executive" 3000).gender = "N/A" ∧
    scatter_df (insertEmployee [rowA] 101 28 "Sales" "Executive" 3000) =
      [rowA] := by
  have h := C10_insert_new_employee [rowA] 101 28 "Sales" "Executive" 3000
    (by decide)
  exact ⟨h.2.2.2.1, h.2.2.1.1, h.2.1.2.1, h.2.2.2.2.2⟩

end HRApp
